import Mathlib

/-
Verification of the BlueBubbles server change-detection and reconciliation
engine against its natural-language specification.

The definitions below are shallow embeddings of the TypeScript source:
pure functions become Lean functions; stateful or asynchronous code becomes
explicit state passing (the reconciliation queue is threaded through the
send functions, and the results of awaited external calls — the private-API
send primitive, repository fetches, promise resolutions — are passed in as
parameters).  JavaScript `null`/`undefined` string fields are `Option
String`; a JS falsy-string check (`!s`) is `none` or the empty string.
Timestamps (`Date.getTime()`) are integers (milliseconds since the epoch).
-/

/-! ## JavaScript string primitives used by the embedded code -/

/-- JS `s.endsWith(suffix)`: the suffix's characters are a suffix of `s`. -/
def jsEndsWith (s suf : String) : Bool :=
  suf.data.isSuffixOf s.data

/-- JS `s.substring(0, k)`: the first `k` characters of `s`. -/
def jsSubstringTo (s : String) (k : Nat) : String :=
  String.mk (s.data.take k)

/-- JS `s.replace(pat, rep)` with a string pattern: replaces only the first
occurrence of `pat` in `s` (if any). -/
def jsReplaceFirst (s pat rep : String) : String :=
  match s.splitOn pat with
  | [] => s
  | [x] => x
  | x :: y :: rest => x ++ rep ++ String.intercalate pat (y :: rest)

/-- Node `path.basename`: the last `/`-separated component of a path. -/
def basename (p : String) : String :=
  (p.splitOn "/").getLastD p

/-- JS falsy test `!s` for a `string | null | undefined` value: true for
absent values and for the empty string. -/
def falsyOptStr : Option String → Bool
  | none => true
  | some s => s == ""

/-- Embedding of the repo's `isNotEmpty` helper on a nullable string:
present and non-empty. -/
def isNotEmptyOpt : Option String → Bool
  | none => false
  | some s => s != ""

/-! ## General string lemmas used by the proofs -/

theorem string_append_cancel_left {a b c : String} (h : a ++ b = a ++ c) :
    b = c := by
  have hd := congrArg String.data h
  simp only [String.data_append] at hd
  exact String.ext (List.append_cancel_left hd)

theorem string_append_cancel_right {a b c : String} (h : a ++ c = b ++ c) :
    a = b := by
  have hd := congrArg String.data h
  simp only [String.data_append] at hd
  exact String.ext (List.append_cancel_right hd)

theorem toDigitsCore_length_le (b : Nat) :
    ∀ (f n : Nat) (ds : List Char),
      ds.length ≤ (Nat.toDigitsCore b f n ds).length := by
  intro f
  induction f with
  | zero => intro n ds; simp [Nat.toDigitsCore]
  | succ f ih =>
    intro n ds
    simp only [Nat.toDigitsCore]
    split
    · simp
    · exact le_trans (by simp) (ih (n / b) (Nat.digitChar (n % b) :: ds))

theorem toDigitsCore_length_lt (b f n : Nat) (ds : List Char) (hf : 0 < f) :
    ds.length < (Nat.toDigitsCore b f n ds).length := by
  cases f with
  | zero => exact absurd hf (by simp)
  | succ f =>
    simp only [Nat.toDigitsCore]
    split
    · simp
    · exact lt_of_lt_of_le (by simp)
        (toDigitsCore_length_le b f (n / b) (Nat.digitChar (n % b) :: ds))

/-- The decimal rendering of a natural number is the string `"0"` only for
zero itself. -/
theorem nat_repr_eq_zero_iff (n : Nat) (h : Nat.repr n = "0") : n = 0 := by
  by_contra hn
  have hrepr : Nat.toDigits 10 n = "0".data := by
    have := congrArg String.data h
    simpa [Nat.repr, List.asString] using this
  rw [Nat.toDigits] at hrepr
  rcases Nat.eq_zero_or_pos n with h0 | hpos
  · exact hn h0
  rw [show n + 1 = Nat.succ n from rfl] at hrepr
  simp only [Nat.toDigitsCore] at hrepr
  by_cases hdiv : n / 10 = 0
  · rw [if_pos hdiv] at hrepr
    have hlt : n < 10 := by
      have := (Nat.div_eq_zero_iff (by norm_num : 0 < 10)).1 hdiv
      omega
    have hmod : n % 10 = n := Nat.mod_eq_of_lt hlt
    rw [hmod] at hrepr
    interval_cases n <;> exact absurd hrepr (by decide)
  · rw [if_neg hdiv] at hrepr
    have hlen := toDigitsCore_length_lt 10 n (n / 10)
      [Nat.digitChar (n % 10)] hpos
    rw [hrepr] at hlen
    simp at hlen

/-- The decimal rendering of an integer is the string `"0"` only for zero. -/
theorem int_toString_eq_zero (t : Int) (h : toString t = "0") : t = 0 := by
  cases t with
  | ofNat m =>
    have : Nat.repr m = "0" := h
    simp [nat_repr_eq_zero_iff m this]
  | negSucc m =>
    exfalso
    have : ("-" ++ Nat.repr (m + 1) : String) = "0" := h
    have hd := congrArg String.data this
    simp [String.data_append] at hd

/-! ## Dedup cache identity keys (claim C1)

The new-message and updated-message listeners consult the event cache using
a key computed by `getCacheName` from the attachment helper module; the key
encodes the row's state, not just its identity. -/

/-- A message row as the listeners observe it.  `dateDelivered` and
`dateRead` are `none` when the corresponding column is null; a present
date is its `getTime()` value in milliseconds.  The fields beyond the
`(guid, dateDelivered, dateRead)` triple are representative of the rest of
the row, so that key stability under changes to unrelated fields is a
meaningful statement. -/
structure MessageRow where
  guid : String
  dateDelivered : Option Int
  dateRead : Option Int
  text : Option String
  dateCreated : Int
  isFromMe : Bool
deriving Repr, DecidableEq

/-- Embedding of `getCacheName`: the dedup-cache identity key
`` `${guid}:${delivered}:${read}` `` where an absent delivered/read date is
rendered as `0`. -/
def getCacheName (m : MessageRow) : String :=
  let delivered : Int := match m.dateDelivered with | some d => d | none => 0
  let read : Int := match m.dateRead with | some r => r | none => 0
  m.guid ++ ":" ++ toString delivered ++ ":" ++ toString read

/-- C1 counterexample: the claim as stated is false.  A row whose
`deliveredAt` goes from null to a *populated* date whose `getTime()` is `0`
(the epoch) produces the *same* key, because the key encodes an absent date
as the sentinel `0`. -/
theorem c1_counterexample :
    getCacheName { guid := "g", dateDelivered := none, dateRead := none,
                   text := none, dateCreated := 5, isFromMe := false } =
    getCacheName { guid := "g", dateDelivered := some 0, dateRead := none,
                   text := none, dateCreated := 5, isFromMe := false } := by
  decide

/-- C1 (amended).  The dedup-cache key is computed from the triple
`(guid, deliveredAt, readAt)` with an absent date encoded as `0`, so two
observations agreeing on that triple produce the same key (whatever their
other fields), while newly populating a previously-null `deliveredAt`
produces a distinct key provided the populated date's millisecond value is
not `0` (the epoch, which collides with the absent-date sentinel). -/
theorem c1_cache_key_state_identity :
    (∀ m₁ m₂ : MessageRow, m₁.guid = m₂.guid →
      m₁.dateDelivered = m₂.dateDelivered → m₁.dateRead = m₂.dateRead →
      getCacheName m₁ = getCacheName m₂) ∧
    (∀ (m : MessageRow) (t : Int), m.dateDelivered = none → t ≠ 0 →
      getCacheName m ≠ getCacheName { m with dateDelivered := some t }) := by
  constructor
  · intro m₁ m₂ h1 h2 h3
    simp only [getCacheName, h1, h2, h3]
  · intro m t hnone ht heq
    simp only [getCacheName, hnone] at heq
    have h1 := string_append_cancel_right heq
    have h2 := string_append_cancel_right h1
    have h3 := string_append_cancel_left h2
    exact ht (int_toString_eq_zero t (by rw [← h3]; rfl))

/-- C1 witness: the amended theorem applied at concrete rows — two
observations of a delivered-and-read row differing only in unrelated fields
share a key, and populating a null `deliveredAt` with the nonzero date `7`
changes the key. -/
theorem c1_cache_key_witness :
    getCacheName { guid := "g", dateDelivered := some 100, dateRead := some 200,
                   text := some "a", dateCreated := 1, isFromMe := false } =
    getCacheName { guid := "g", dateDelivered := some 100, dateRead := some 200,
                   text := some "b", dateCreated := 2, isFromMe := true } ∧
    getCacheName { guid := "g", dateDelivered := none, dateRead := none,
                   text := none, dateCreated := 1, isFromMe := false } ≠
    getCacheName { guid := "g", dateDelivered := some 7, dateRead := none,
                   text := none, dateCreated := 1, isFromMe := false } :=
  ⟨c1_cache_key_state_identity.1 _ _ rfl rfl rfl,
   c1_cache_key_state_identity.2
     { guid := "g", dateDelivered := none, dateRead := none,
       text := none, dateCreated := 1, isFromMe := false } 7 rfl (by decide)⟩

/-! ## Outbound send interface (claims C2, C3, C4, C6, C7)

Embedding of `MessageInterface` from
`packages/server/src/server/api/v1/interfaces/messageInterface.ts`.
Each send function takes the current wall-clock time, the reconciliation
queue (the `messageManager`'s list of pending `MessagePromise`s) and the
results of the awaited external calls, and returns the new queue paired
with the call's outcome (`Except` models a synchronous throw). -/

/-- Modelled from the spec: the data captured by a `MessagePromise`
(Outbound Send Request, spec section 3) at construction.  The
`MessagePromise` class itself lives outside the provided sources; its
constructor arguments are exactly those passed at the three creation
sites. -/
structure MessagePromiseData where
  chatGuid : String
  text : Option String
  isAttachment : Bool
  sentAt : Int
  subject : Option String
  tempGuid : Option String
deriving Repr, DecidableEq

/-- A store message row as returned to the caller of a send.  Only the
fields the embedded control flow inspects are kept. -/
structure MessageRec where
  guid : String
  text : Option String
deriving Repr, DecidableEq

/-- Embedding of the identifier re-fetch loop shared by the private-API
send paths: an initial `getMessage` plus retries until the first hit, with
at most `limit` fetches in total.  `fetch i` is the repository's answer to
the `i`-th fetch. -/
def retryFetch (fetch : Nat → Option MessageRec) (limit : Nat) :
    Option MessageRec :=
  (List.range limit).findSome? fetch

/-- Embedding of `MessageInterface.sendMessagePrivateApi`.
`privateApiConnected` is the outcome of `checkPrivateApiStatus` (which
throws when the helper is not connected); `sendResult` is
`result?.identifier` from the private-API send primitive (`none` when the
primitive returned no result or no identifier).  The function never touches
the message manager, so the queue is returned unchanged on every path. -/
def sendMessagePrivateApi (queue : List MessagePromiseData)
    (privateApiConnected : Bool) (sendResult : Option String)
    (fetch : Nat → Option MessageRec) :
    List MessagePromiseData × Except String MessageRec :=
  if !privateApiConnected then
    (queue, .error "Private API is not connected!")
  else if falsyOptStr sendResult then
    (queue, .error "Failed to send message!")
  else
    match retryFetch fetch 40 with
    | some m => (queue, .ok m)
    | none =>
      (queue, .error "Failed to send message! Message not found after 5 seconds!")

/-- Parameters of `sendMessageSync`.  Fields that are forwarded opaquely to
the private-API helper without affecting control flow (`attributedBody`,
`effectId`, `selectedMessageGuid`, `partIndex`) are omitted. -/
structure SendMessageParams where
  chatGuid : String
  message : Option String
  method : String
  subject : Option String
  tempGuid : Option String
deriving Repr, DecidableEq

/-- Embedding of `MessageInterface.sendMessageSync`: guard on a falsy chat
GUID, back-date `sentAt` by 10 seconds, enqueue the awaiter, then dispatch
on the send method.  `awaiterResult` is the eventual resolution of the
awaiter's promise (apple-script path); the remaining parameters feed the
private-api path. -/
def sendMessageSync (p : SendMessageParams) (now : Int)
    (queue : List MessagePromiseData)
    (awaiterResult : Except String MessageRec)
    (privateApiConnected : Bool) (sendResult : Option String)
    (fetch : Nat → Option MessageRec) :
    List MessagePromiseData × Except String MessageRec :=
  if p.chatGuid == "" then (queue, .error "No chat GUID provided")
  else
    let sentAt : Int := now - 10000
    let awaiter : MessagePromiseData :=
      { chatGuid := p.chatGuid, text := p.message, isAttachment := false,
        sentAt := sentAt, subject := p.subject, tempGuid := p.tempGuid }
    let queue2 := queue ++ [awaiter]
    if p.method == "apple-script" then (queue2, awaiterResult)
    else if p.method == "private-api" then
      sendMessagePrivateApi queue2 privateApiConnected sendResult fetch
    else (queue2, .error ("Invalid send method: " ++ p.method))

/-- Embedding of the attachment-name correction inside
`sendAttachmentSync`: since the transmission path converts `.mp3` audio to
`.caf`, an attachment name ending in `.mp3` has that suffix replaced by
`.caf` before it is recorded as the awaiter's expected transfer name. -/
def correctedTransferName (attachmentName : Option String) : Option String :=
  match attachmentName with
  | none => none
  | some n =>
    if jsEndsWith n ".mp3" then some (jsSubstringTo n (n.length - 4) ++ ".caf")
    else some n

/-- Parameters of `sendAttachmentSync`. -/
structure SendAttachmentParams where
  chatGuid : String
  attachmentPath : String
  attachmentName : Option String
  attachmentGuid : Option String
deriving Repr, DecidableEq

/-- Embedding of `MessageInterface.sendAttachmentSync`: guard on a falsy
chat GUID, correct the attachment name, back-date `sentAt` by 10 seconds,
enqueue the awaiter and await its promise. -/
def sendAttachmentSync (p : SendAttachmentParams) (now : Int)
    (queue : List MessagePromiseData)
    (awaiterResult : Except String MessageRec) :
    List MessagePromiseData × Except String MessageRec :=
  if p.chatGuid == "" then (queue, .error "No chat GUID provided")
  else
    let aName := correctedTransferName p.attachmentName
    let sentAt : Int := now - 10000
    let awaiter : MessagePromiseData :=
      { chatGuid := p.chatGuid, text := aName, isAttachment := true,
        sentAt := sentAt, subject := none, tempGuid := p.attachmentGuid }
    (queue ++ [awaiter], awaiterResult)

/-- Modelled from the spec: the invisible placeholder character whose sole
presence as a message's text marks an attachment-only message (the constant
lives in the http-service constants module, outside the provided sources;
its concrete value is immaterial to the claims). -/
def invisibleMediaChar : String := String.mk [Char.ofNat 65532]

/-- Modelled from the spec: the slice of an attachment row that the
reaction-text heuristic inspects (the `Attachment` entity lives outside the
provided sources; the heuristic reads only its MIME type). -/
structure ReactionAttachment where
  mimeType : String
deriving Repr, DecidableEq

/-- The slice of the target message that `sendReaction` inspects:
`universalText` is the message's `universalText(false)` (nullable), and
`attachments` its attachment rows. -/
structure ReactionTarget where
  guid : String
  universalText : Option String
  attachments : List ReactionAttachment
deriving Repr, DecidableEq

/-- Embedding of the expected-text reconstruction inside
`MessageInterface.sendReaction`: the reaction phrase (negative mapping
exactly when the reaction name starts with `"-"`), a space, then either a
media phrase chosen from the first attachment's MIME type (for a message
whose text is just the invisible media character and which has at least one
attachment) or the target's text in curly quotes.  The two reaction
phrase mappings live in a module outside the provided sources, so they are
parameters. -/
def reactionMatchText (posMap negMap : String → String) (reaction : String)
    (target : ReactionTarget) : String :=
  let phrase := if reaction.startsWith "-" then negMap reaction else posMap reaction
  let text := target.universalText.getD ""
  let isOnlyMedia := text.length == 1 && text == invisibleMediaChar
  let msg :=
    if isOnlyMedia && !target.attachments.isEmpty then
      match target.attachments with
      | [] => "an attachment"
      | a :: _ =>
        if a.mimeType.startsWith "image" then "an image"
        else if a.mimeType.startsWith "video" then "a movie"
        else "an attachment"
    else "“" ++ text ++ "”"
  phrase ++ " " ++ msg

/-- Parameters of `sendReaction`. -/
structure SendReactionParams where
  chatGuid : String
  message : ReactionTarget
  reaction : String
  tempGuid : Option String

/-- Embedding of `MessageInterface.sendReaction`: check the private API,
rebuild the expected match text, enqueue a back-dated awaiter, invoke the
reaction primitive (throwing when it returns no identifier), then re-fetch
the sent reaction by identifier, falling back to the awaiter's promise.  A
resolved promise always carries a message, so the embedded fallback
returns `awaiterResult` directly. -/
def sendReaction (p : SendReactionParams) (posMap negMap : String → String)
    (now : Int) (queue : List MessagePromiseData)
    (privateApiConnected : Bool) (sendResult : Option String)
    (fetch : Nat → Option MessageRec)
    (awaiterResult : Except String MessageRec) :
    List MessagePromiseData × Except String MessageRec :=
  if !privateApiConnected then
    (queue, .error "Private API is not connected!")
  else
    let messageText := reactionMatchText posMap negMap p.reaction p.message
    let sentAt : Int := now - 10000
    let awaiter : MessagePromiseData :=
      { chatGuid := p.chatGuid, text := some messageText, isAttachment := false,
        sentAt := sentAt, subject := none, tempGuid := p.tempGuid }
    let queue2 := queue ++ [awaiter]
    if falsyOptStr sendResult then
      (queue2, .error "Failed to send reaction! No message GUID returned.")
    else
      match retryFetch fetch 20 with
      | some m => (queue2, .ok m)
      | none => (queue2, awaiterResult)

/-- The claim's notion of an attachment-only target: the message's text is
just the invisible media placeholder and it carries at least one
attachment. -/
def targetIsAttachmentOnly (t : ReactionTarget) : Bool :=
  t.universalText.getD "" == invisibleMediaChar && !t.attachments.isEmpty

/-- Statement of claim C2 as a definition, written from the claim's words:
the fixed reaction phrase (negative mapping exactly when the reaction name
starts with `"-"`, else the positive mapping), a space, then `"an image"`
for an attachment-only target whose first attachment MIME starts with
`image`, `"a movie"` for `video`, `"an attachment"` for any other
attachment-only target, and otherwise the target's text in curly quotes. -/
def specReactionMatchText (posMap negMap : String → String)
    (reaction : String) (t : ReactionTarget) : String :=
  let phrase := if reaction.startsWith "-" then negMap reaction else posMap reaction
  let media :=
    if targetIsAttachmentOnly t then
      match t.attachments.head? with
      | some a =>
        if a.mimeType.startsWith "image" then "an image"
        else if a.mimeType.startsWith "video" then "a movie"
        else "an attachment"
      | none => "an attachment"
    else "“" ++ t.universalText.getD "" ++ "”"
  phrase ++ " " ++ media

/-- C2.  For every reaction send, the expected match text the code builds
is exactly the text the claim describes: reaction phrase (negative mapping
iff the name starts with `"-"`), a space, and the media phrase or
curly-quoted target text. -/
theorem c2_reaction_match_text (posMap negMap : String → String)
    (reaction : String) (t : ReactionTarget) :
    reactionMatchText posMap negMap reaction t =
    specReactionMatchText posMap negMap reaction t := by
  simp only [reactionMatchText, specReactionMatchText, targetIsAttachmentOnly]
  by_cases htext : t.universalText.getD "" = invisibleMediaChar
  · have hone : (invisibleMediaChar.length == 1) = true := by decide
    simp only [htext, hone, beq_self_eq_true, Bool.true_and, Bool.and_true]
    cases t.attachments with
    | nil => simp
    | cons a l => simp
  · have hbeq : (t.universalText.getD "" == invisibleMediaChar) = false :=
      beq_eq_false_iff_ne.mpr htext
    simp [hbeq]

/-- C3.  The awaiter's expected transfer name: a caller name ending in
`.mp3` has that suffix replaced by `.caf`; any name that is not of the
form `stem ++ ".mp3"` is kept unchanged; an absent name stays absent. -/
theorem c3_transfer_name_normalization :
    (∀ stem : String,
      correctedTransferName (some (stem ++ ".mp3")) = some (stem ++ ".caf")) ∧
    (∀ n : String, (∀ stem : String, n ≠ stem ++ ".mp3") →
      correctedTransferName (some n) = some n) ∧
    correctedTransferName none = none := by
  refine ⟨?_, ?_, rfl⟩
  · intro stem
    have hsuf : jsEndsWith (stem ++ ".mp3") ".mp3" = true := by
      rw [jsEndsWith, List.isSuffixOf_iff_suffix]
      exact ⟨stem.data, by simp [String.data_append]⟩
    simp only [correctedTransferName, hsuf, if_pos]
    congr 1
    have hlen : (stem ++ ".mp3").length - 4 = stem.data.length := by
      have h4 : (".mp3" : String).length = 4 := rfl
      rw [String.length_append, h4]
      have hs : stem.length = stem.data.length := rfl
      omega
    rw [jsSubstringTo, hlen]
    have htake : (stem ++ ".mp3").data.take stem.data.length = stem.data := by
      rw [String.data_append]
      exact List.take_left stem.data ".mp3".data
    rw [htake]
  · intro n hn
    have hsuf : jsEndsWith n ".mp3" = false := by
      by_contra hcon
      rw [Bool.not_eq_false, jsEndsWith, List.isSuffixOf_iff_suffix] at hcon
      obtain ⟨l, hl⟩ := hcon
      exact hn (String.mk l) (String.ext (by simp [String.data_append, hl]))
    simp [correctedTransferName, hsuf]

/-- C3 witness: a request for `voice.mp3` expects the transfer name
`voice.caf`, while `voice.wav` is kept unchanged and an absent name stays
absent. -/
theorem c3_transfer_name_witness :
    correctedTransferName (some "voice.mp3") = some "voice.caf" ∧
    correctedTransferName (some "voice.wav") = some "voice.wav" ∧
    correctedTransferName none = none := by
  refine ⟨c3_transfer_name_normalization.1 "voice", ?_, c3_transfer_name_normalization.2.2⟩
  refine c3_transfer_name_normalization.2.1 "voice.wav" ?_
  intro stem h
  have hsuf : (".mp3".data).isSuffixOf "voice.wav".data = true := by
    rw [List.isSuffixOf_iff_suffix]
    refine ⟨stem.data, ?_⟩
    have := congrArg String.data h
    simp only [String.data_append] at this
    exact this.symm
  exact absurd hsuf (by decide)

theorem sendMessagePrivateApi_queue_eq (queue : List MessagePromiseData)
    (pc : Bool) (sr : Option String) (fetch : Nat → Option MessageRec) :
    (sendMessagePrivateApi queue pc sr fetch).1 = queue := by
  simp only [sendMessagePrivateApi]
  split
  · rfl
  · split
    · rfl
    · split <;> rfl

/-- C4.  Every Send Request created by `sendMessageSync`,
`sendAttachmentSync` or `sendReaction` records `sentAt` as the current time
minus exactly 10000 milliseconds. -/
theorem c4_sent_at_backdated :
    (∀ (p : SendMessageParams) (now : Int) (queue : List MessagePromiseData)
       (ar : Except String MessageRec) (pc : Bool) (sr : Option String)
       (fetch : Nat → Option MessageRec),
      (p.chatGuid == "") = false →
      ∃ awaiter : MessagePromiseData,
        (sendMessageSync p now queue ar pc sr fetch).1 = queue ++ [awaiter] ∧
        awaiter.sentAt = now - 10000) ∧
    (∀ (p : SendAttachmentParams) (now : Int) (queue : List MessagePromiseData)
       (ar : Except String MessageRec),
      (p.chatGuid == "") = false →
      ∃ awaiter : MessagePromiseData,
        (sendAttachmentSync p now queue ar).1 = queue ++ [awaiter] ∧
        awaiter.sentAt = now - 10000) ∧
    (∀ (p : SendReactionParams) (posMap negMap : String → String) (now : Int)
       (queue : List MessagePromiseData) (sr : Option String)
       (fetch : Nat → Option MessageRec) (ar : Except String MessageRec),
      ∃ awaiter : MessagePromiseData,
        (sendReaction p posMap negMap now queue true sr fetch ar).1 =
          queue ++ [awaiter] ∧
        awaiter.sentAt = now - 10000) := by
  refine ⟨?_, ?_, ?_⟩
  · intro p now queue ar pc sr fetch hguid
    refine ⟨{ chatGuid := p.chatGuid, text := p.message, isAttachment := false,
              sentAt := now - 10000, subject := p.subject,
              tempGuid := p.tempGuid }, ?_, rfl⟩
    simp only [sendMessageSync, hguid, Bool.false_eq_true, if_false]
    split
    · rfl
    · split
      · exact sendMessagePrivateApi_queue_eq _ _ _ _
      · rfl
  · intro p now queue ar hguid
    refine ⟨{ chatGuid := p.chatGuid, text := correctedTransferName p.attachmentName,
              isAttachment := true, sentAt := now - 10000, subject := none,
              tempGuid := p.attachmentGuid }, ?_, rfl⟩
    simp only [sendAttachmentSync, hguid, Bool.false_eq_true, if_false]
  · intro p posMap negMap now queue sr fetch ar
    refine ⟨{ chatGuid := p.chatGuid,
              text := some (reactionMatchText posMap negMap p.reaction p.message),
              isAttachment := false, sentAt := now - 10000, subject := none,
              tempGuid := p.tempGuid }, ?_, rfl⟩
    simp only [sendReaction, Bool.not_true, Bool.false_eq_true, if_false]
    split
    · rfl
    · split <;> rfl

/-- C4 witness: the theorem applied at a concrete message send, attachment
send and reaction send, each at time 20000, all recording `sentAt` as
10000. -/
theorem c4_sent_at_witness :
    (∃ awaiter : MessagePromiseData,
      (sendMessageSync
        { chatGuid := "c", message := some "hi", method := "apple-script",
          subject := none, tempGuid := none } 20000 []
        (.error "t") false none (fun _ => none)).1 = [] ++ [awaiter] ∧
      awaiter.sentAt = 20000 - 10000) ∧
    (∃ awaiter : MessagePromiseData,
      (sendAttachmentSync
        { chatGuid := "c", attachmentPath := "/tmp/v", attachmentName := some "voice.mp3",
          attachmentGuid := none } 20000 [] (.error "t")).1 = [] ++ [awaiter] ∧
      awaiter.sentAt = 20000 - 10000) ∧
    (∃ awaiter : MessagePromiseData,
      (sendReaction
        { chatGuid := "c", message := { guid := "m", universalText := some "yo",
                                        attachments := [] },
          reaction := "love", tempGuid := none }
        (fun _ => "Loved") (fun _ => "Removed a heart from") 20000 [] true
        (some "id") (fun _ => none) (.error "t")).1 = [] ++ [awaiter] ∧
      awaiter.sentAt = 20000 - 10000) :=
  ⟨c4_sent_at_backdated.1 _ 20000 [] _ false none (fun _ => none) (by decide),
   c4_sent_at_backdated.2.1 _ 20000 [] _ (by decide),
   c4_sent_at_backdated.2.2 _ _ _ 20000 [] (some "id") (fun _ => none) _⟩

/-- C6.  When the private-channel send primitive returns no identifier,
`sendMessagePrivateApi` throws synchronously with the reconciliation queue
untouched (so the failed request never enters the timeout window), and
`sendReaction` throws synchronously as well. -/
theorem c6_primitive_failure_sync :
    (∀ (queue : List MessagePromiseData) (sr : Option String)
       (fetch : Nat → Option MessageRec),
      falsyOptStr sr = true →
      sendMessagePrivateApi queue true sr fetch =
        (queue, .error "Failed to send message!")) ∧
    (∀ (p : SendReactionParams) (posMap negMap : String → String) (now : Int)
       (queue : List MessagePromiseData) (sr : Option String)
       (fetch : Nat → Option MessageRec) (ar : Except String MessageRec),
      falsyOptStr sr = true →
      (sendReaction p posMap negMap now queue true sr fetch ar).2 =
        .error "Failed to send reaction! No message GUID returned.") := by
  constructor
  · intro queue sr fetch hsr
    simp [sendMessagePrivateApi, hsr]
  · intro p posMap negMap now queue sr fetch ar hsr
    simp [sendReaction, hsr]

/-- C6 witness: a private-API message send and a reaction send whose
primitive returned no identifier both fail synchronously, the former
leaving the (empty) queue untouched. -/
theorem c6_primitive_failure_witness :
    sendMessagePrivateApi [] true none (fun _ => none) =
      ([], .error "Failed to send message!") ∧
    (sendReaction
      { chatGuid := "c", message := { guid := "m", universalText := some "yo",
                                      attachments := [] },
        reaction := "love", tempGuid := none }
      (fun _ => "Loved") (fun _ => "Removed a heart from") 20000 [] true none
      (fun _ => none) (.error "t")).2 =
      .error "Failed to send reaction! No message GUID returned." :=
  ⟨c6_primitive_failure_sync.1 [] none (fun _ => none) rfl,
   c6_primitive_failure_sync.2 _ _ _ 20000 [] none (fun _ => none) _ rfl⟩

/-- C7.  A call to `sendMessageSync` or `sendAttachmentSync` with a falsy
chat GUID throws synchronously and leaves the reconciliation queue
unchanged. -/
theorem c7_missing_chat_guid :
    (∀ (p : SendMessageParams) (now : Int) (queue : List MessagePromiseData)
       (ar : Except String MessageRec) (pc : Bool) (sr : Option String)
       (fetch : Nat → Option MessageRec),
      p.chatGuid = "" →
      sendMessageSync p now queue ar pc sr fetch =
        (queue, .error "No chat GUID provided")) ∧
    (∀ (p : SendAttachmentParams) (now : Int) (queue : List MessagePromiseData)
       (ar : Except String MessageRec),
      p.chatGuid = "" →
      sendAttachmentSync p now queue ar =
        (queue, .error "No chat GUID provided")) := by
  constructor
  · intro p now queue ar pc sr fetch hguid
    simp [sendMessageSync, hguid]
  · intro p now queue ar hguid
    simp [sendAttachmentSync, hguid]

/-- C7 witness: sends with an empty chat GUID fail with the guard error and
leave a concrete one-element queue unchanged. -/
theorem c7_missing_chat_guid_witness :
    sendMessageSync
      { chatGuid := "", message := some "hi", method := "apple-script",
        subject := none, tempGuid := none } 20000
      [{ chatGuid := "c", text := some "x", isAttachment := false,
         sentAt := 0, subject := none, tempGuid := none }]
      (.error "t") false none (fun _ => none) =
      ([{ chatGuid := "c", text := some "x", isAttachment := false,
          sentAt := 0, subject := none, tempGuid := none }],
       .error "No chat GUID provided") ∧
    sendAttachmentSync
      { chatGuid := "", attachmentPath := "/tmp/v", attachmentName := some "a.png",
        attachmentGuid := none } 20000 [] (.error "t") =
      ([], .error "No chat GUID provided") :=
  ⟨c7_missing_chat_guid.1 _ 20000 _ _ false none (fun _ => none) rfl,
   c7_missing_chat_guid.2 _ 20000 [] _ rfl⟩

/-! ## Server startup and the chat listeners (claim C5)

Embedding of `BlueBubblesServer.start` / `startChatListener` from
`src/main/server/index.ts`, as a transformer on the slice of server state
those methods mutate.  External collaborators (ngrok, the configuration
database) are outside the model. -/

/-- The slice of `BlueBubblesServer` state touched by startup. -/
structure ServerState where
  iMessageRepoDbConnected : Bool
  alerts : List (String × String)
  queueServiceStarted : Bool
  chatListenersStarted : List String
  ipcHandlersRegistered : Bool
  socketServiceStarted : Bool
  fcmServiceStarted : Bool
deriving Repr, DecidableEq

/-- Embedding of `startChatListener`: with no iMessage store handle it
creates an informational alert and returns without starting the queue
service or any chat listener; otherwise it starts the queue service and
the three polling listeners. -/
def startChatListener (s : ServerState) : ServerState :=
  if !s.iMessageRepoDbConnected then
    { s with alerts := s.alerts ++
        [("info",
          "Restart the app once 'Full Disk Access' and 'Accessibility' permissions are enabled")] }
  else
    { s with queueServiceStarted := true,
             chatListenersStarted := s.chatListenersStarted ++
               ["new-message", "updated-message", "group-change"] }

/-- Embedding of `startIpcListener`: registers the IPC request handlers. -/
def startIpcListener (s : ServerState) : ServerState :=
  { s with ipcHandlersRegistered := true }

/-- Embedding of `BlueBubblesServer.start` after `setup`: start the socket
and FCM services, then the chat listeners, then the IPC handlers (the
trailing ngrok connection is an external collaborator). -/
def serverStart (s : ServerState) : ServerState :=
  startIpcListener
    (startChatListener
      { s with socketServiceStarted := true, fcmServiceStarted := true })

/-- C5.  When the store handle is absent at listener start, no chat
listener (and no queue service) is started, an informational notice is
recorded, and the rest of the service still starts (socket service and IPC
handlers). -/
theorem c5_no_store_handle_refuses_listeners (s : ServerState)
    (h : s.iMessageRepoDbConnected = false) :
    (serverStart s).chatListenersStarted = s.chatListenersStarted ∧
    (serverStart s).queueServiceStarted = s.queueServiceStarted ∧
    (serverStart s).alerts = s.alerts ++
      [("info",
        "Restart the app once 'Full Disk Access' and 'Accessibility' permissions are enabled")] ∧
    (serverStart s).ipcHandlersRegistered = true ∧
    (serverStart s).socketServiceStarted = true ∧
    (serverStart s).fcmServiceStarted = true := by
  simp [serverStart, startChatListener, startIpcListener, h]

/-- C5 witness: the theorem at a concrete fresh server state with no store
handle. -/
theorem c5_no_store_handle_witness :
    (serverStart
      { iMessageRepoDbConnected := false, alerts := [],
        queueServiceStarted := false, chatListenersStarted := [],
        ipcHandlersRegistered := false, socketServiceStarted := false,
        fcmServiceStarted := false }).chatListenersStarted = [] ∧
    (serverStart
      { iMessageRepoDbConnected := false, alerts := [],
        queueServiceStarted := false, chatListenersStarted := [],
        ipcHandlersRegistered := false, socketServiceStarted := false,
        fcmServiceStarted := false }).ipcHandlersRegistered = true := by
  have h := c5_no_store_handle_refuses_listeners
    { iMessageRepoDbConnected := false, alerts := [],
      queueServiceStarted := false, chatListenersStarted := [],
      ipcHandlersRegistered := false, socketServiceStarted := false,
      fcmServiceStarted := false } rfl
  exact ⟨h.1, h.2.2.2.1⟩

/-! ## Helper channel inbound events (claim C8)

Embedding of `BlueBubblesHelperService.setupListeners` from
`src/main/server/services/helperProcess/index.ts`: the handler run for each
parsed line received on the helper socket. -/

/-- A parsed line-delimited JSON event from the helper process: its `event`
discriminator and its `guid` field (absent when the line carries none). -/
structure HelperEvent where
  event : String
  guid : Option String
deriving Repr, DecidableEq

/-- What the data handler forwards: a typing-indicator notification to the
dispatcher (`Server().emitMessage("typing-indicator", ...)`), or a log
line. -/
inductive HelperEmission where
  | typingIndicator (display : Bool) (guid : Option String)
  | logLine (line : String)
deriving Repr, DecidableEq

/-- Embedding of the helper socket's data handler: a `started-typing`
(resp. `stopped-typing`) event emits one typing-indicator with display flag
true (resp. false) carrying the event's guid; every line is also logged. -/
def handleHelperData (e : HelperEvent) : List HelperEmission :=
  (if e.event == "started-typing" then
    [HelperEmission.typingIndicator true e.guid,
     HelperEmission.logLine "Started typing!"]
  else if e.event == "stopped-typing" then
    [HelperEmission.typingIndicator false e.guid,
     HelperEmission.logLine "Stopped typing!"]
  else []) ++ [HelperEmission.logLine "Helper gave new data!"]

/-- Recognizes the typing-indicator notifications among the handler's
emissions. -/
def isTypingEmission : HelperEmission → Bool
  | .typingIndicator _ _ => true
  | .logLine _ => false

/-- C8.  A `started-typing` (resp. `stopped-typing`) line emits exactly one
typing-indicator, with display flag true (resp. false) and the line's chat
identity; any other event emits none. -/
theorem c8_typing_indicator_emissions (e : HelperEvent) :
    (e.event = "started-typing" →
      (handleHelperData e).filter isTypingEmission =
        [HelperEmission.typingIndicator true e.guid]) ∧
    (e.event = "stopped-typing" →
      (handleHelperData e).filter isTypingEmission =
        [HelperEmission.typingIndicator false e.guid]) ∧
    (e.event ≠ "started-typing" → e.event ≠ "stopped-typing" →
      (handleHelperData e).filter isTypingEmission = []) := by
  refine ⟨?_, ?_, ?_⟩
  · intro h
    simp [handleHelperData, h, isTypingEmission]
  · intro h
    simp [handleHelperData, h, isTypingEmission]
  · intro h1 h2
    have hb1 : (e.event == "started-typing") = false := beq_eq_false_iff_ne.mpr h1
    have hb2 : (e.event == "stopped-typing") = false := beq_eq_false_iff_ne.mpr h2
    simp [handleHelperData, hb1, hb2, isTypingEmission]

/-- C8 witness: the theorem at three concrete lines — a start, a stop and
an unrelated event. -/
theorem c8_typing_indicator_witness :
    (handleHelperData { event := "started-typing", guid := some "chat1" }).filter
      isTypingEmission = [HelperEmission.typingIndicator true (some "chat1")] ∧
    (handleHelperData { event := "stopped-typing", guid := some "chat1" }).filter
      isTypingEmission = [HelperEmission.typingIndicator false (some "chat1")] ∧
    (handleHelperData { event := "ping", guid := none }).filter
      isTypingEmission = [] :=
  ⟨(c8_typing_indicator_emissions _).1 rfl,
   (c8_typing_indicator_emissions _).2.1 rfl,
   (c8_typing_indicator_emissions
     { event := "ping", guid := none }).2.2 (by decide) (by decide)⟩

/-! ## The attributed-body column transformer (claim C9)

Embedding of `AttributedBodyTransformer` from
`packages/server/src/server/databases/transformers/AttributedBodyTransformer.ts`.
The typed-stream unarchiver is an external collaborator: its outcome for
the database value at hand — a thrown deserialization error or the decoded
list of archives — is the embedded function's input, so the `try`/`catch`
becomes a `match` and totality of the embedding models "never throws". -/

/-- An `NSAttributedString` element as the transformer manipulates it: its
(possibly absent) `value` and `string` properties. -/
structure NSAttrElem where
  value : Option String
  string : Option String
deriving Repr, DecidableEq

/-- A decoded value from an unarchived typed-stream: null, an
`NSAttributedString`, or some other object. -/
inductive DecodedValue where
  | nullVal
  | nsAttr (e : NSAttrElem)
  | other
deriving Repr, DecidableEq

/-- One archive produced by `Unarchiver.open(dbValue).decodeAll()`: the
transformer reads only its `values`. -/
structure DecodedArchive where
  values : List DecodedValue
deriving Repr, DecidableEq

/-- Embedding of the backwards-compatibility rename inside the
transformer's `map`: when a `value` key is present, its content is moved to
`string` and `value` is deleted. -/
def renameValueField (e : NSAttrElem) : NSAttrElem :=
  match e.value with
  | some v => { value := none, string := some v }
  | none => e

/-- The truthy-`NSAttributedString` filter inside the transformer. -/
def pickNSAttr : DecodedValue → Option NSAttrElem
  | .nsAttr e => some e
  | .nullVal => none
  | .other => none

/-- Embedding of `AttributedBodyTransformer.from`: null on a thrown
deserialization or an empty decode, else the first archive's values
filtered to `NSAttributedString`s with each `value` key renamed to
`string`. -/
def attributedBodyFrom (decoded : Except String (List DecodedArchive)) :
    Option (List NSAttrElem) :=
  match decoded with
  | .error _ => none
  | .ok [] => none
  | .ok (a :: _) => some ((a.values.filterMap pickNSAttr).map renameValueField)

/-- Embedding of `AttributedBodyTransformer.to`: always null. -/
def attributedBodyTo (_v : Option String) : Option String :=
  none

/-- C9.  The transformer's `from` returns null on any failed
deserialization and on an empty decode, and otherwise a list in which every
element's `value` key has been renamed away (moved into `string`); its `to`
returns null on every input.  Totality of `attributedBodyFrom` models that
`from` never throws, and its codomain models that a non-null result holds
only `NSAttributedString` elements. -/
theorem c9_attributed_body_transformer :
    (∀ msg : String, attributedBodyFrom (.error msg) = none) ∧
    attributedBodyFrom (.ok []) = none ∧
    (∀ (decoded : Except String (List DecodedArchive)) (l : List NSAttrElem),
      attributedBodyFrom decoded = some l → ∀ e ∈ l, e.value = none) ∧
    (∀ v : Option String, attributedBodyTo v = none) := by
  refine ⟨fun _ => rfl, rfl, ?_, fun _ => rfl⟩
  intro decoded l hsome e he
  match decoded with
  | .error _ => exact absurd hsome (by simp [attributedBodyFrom])
  | .ok [] => exact absurd hsome (by simp [attributedBodyFrom])
  | .ok (a :: rest) =>
    simp only [attributedBodyFrom, Option.some.injEq] at hsome
    subst hsome
    obtain ⟨e₀, he₀, rfl⟩ := List.mem_map.mp he
    unfold renameValueField
    match h : e₀.value with
    | some v => simp
    | none => simp [h]

/-- C9 witness: decoding an archive holding one `NSAttributedString` (with
a `value` key) and one other object yields exactly the renamed element, and
the theorem certifies its `value` key is gone. -/
theorem c9_attributed_body_witness :
    attributedBodyFrom
      (.ok [{ values := [DecodedValue.nsAttr { value := some "hi", string := none },
                         DecodedValue.other, DecodedValue.nullVal] }]) =
      some [{ value := none, string := some "hi" }] ∧
    ({ value := none, string := some "hi" } : NSAttrElem).value = none :=
  ⟨rfl,
   c9_attributed_body_transformer.2.2.1
     (.ok [{ values := [DecodedValue.nsAttr { value := some "hi", string := none },
                        DecodedValue.other, DecodedValue.nullVal] }])
     [{ value := none, string := some "hi" }] rfl
     { value := none, string := some "hi" } (by decide)⟩

/-! ## Attachment format conversion (claim C10)

Embedding of `convertAudio`, `convertImage` and `convertVideo` from the
attachment helper module.  The filesystem probe (`fs.existsSync(newPath)`)
and whether the invoked converter would throw are environment inputs; each
function returns the new path (or null) paired with the attachment's
resulting field state. -/

/-- The slice of the `Attachment` entity the converters read and write. -/
structure ConvAttachment where
  guid : String
  uti : Option String
  mimeType : Option String
  filePath : String
  transferName : Option String
deriving Repr, DecidableEq

/-- Embedding of `convertAudio`: recognizes `com.apple.coreaudio-format`,
converts (unless the target already exists), and on a non-failure rewrites
the attachment's MIME type, file path and transfer name. -/
def convertAudio (convertDir : String) (att : ConvAttachment)
    (newPathExists conversionThrows : Bool) : Option String × ConvAttachment :=
  let newPath := convertDir ++ "/" ++ att.guid ++ ".mp3"
  let ext : Option String :=
    if att.uti == some "com.apple.coreaudio-format" then some "caf" else none
  let failed := !newPathExists && ext == some "caf" && conversionThrows
  if !failed && ext.isSome then
    (some newPath,
     { att with mimeType := some "audio/mp3", filePath := newPath,
                transferName := some (jsReplaceFirst (basename newPath)
                  ("." ++ ext.getD "") ".mp3") })
  else (none, att)

/-- Embedding of `convertImage`: recognizes a MIME type starting with
`image/heic`, converts (unless the target already exists), and on a
non-failure rewrites the attachment's MIME type, file path and transfer
name. -/
def convertImage (convertDir : String) (att : ConvAttachment)
    (newPathExists conversionThrows : Bool) : Option String × ConvAttachment :=
  let newPath := convertDir ++ "/" ++ att.guid ++ ".jpg"
  let ext : Option String :=
    if isNotEmptyOpt att.mimeType &&
        (att.mimeType.getD "").startsWith "image/heic" then some "heic" else none
  let failed := !newPathExists && ext == some "heic" && conversionThrows
  if !failed && ext.isSome then
    (some newPath,
     { att with mimeType := some "image/jpg", filePath := newPath,
                transferName := some (jsReplaceFirst (basename newPath)
                  ("." ++ ext.getD "") ".jpg") })
  else (none, att)

/-- Embedding of `convertVideo`: recognizes the QuickTime UTI or a MIME
type starting with `video/quicktime` (the check is reached only for a
non-empty MIME type), converts (unless the target already exists), and on
a non-failure rewrites the attachment's MIME type, file path and transfer
name. -/
def convertVideo (convertDir : String) (att : ConvAttachment)
    (newPathExists conversionThrows : Bool) : Option String × ConvAttachment :=
  let newPath := convertDir ++ "/" ++ att.guid ++ ".mp4"
  let ext : Option String :=
    if isNotEmptyOpt att.mimeType &&
        (att.uti == some "com.apple.quicktime-movie" ||
         (att.mimeType.getD "").startsWith "video/quicktime") then some "mov"
    else none
  let failed := !newPathExists && ext == some "mov" && conversionThrows
  if !failed && ext.isSome then
    (some newPath,
     { att with mimeType := some "video/mp4", filePath := newPath,
                transferName := some (jsReplaceFirst (basename newPath)
                  ("." ++ ext.getD "") ".mp4") })
  else (none, att)

/-- The claim's recognized convertible format for `convertAudio`. -/
def audioConvertible (att : ConvAttachment) : Prop :=
  att.uti = some "com.apple.coreaudio-format"

/-- The claim's recognized convertible format for `convertImage`. -/
def imageConvertible (att : ConvAttachment) : Prop :=
  ∃ m : String, att.mimeType = some m ∧ m.startsWith "image/heic" = true

/-- The claim's recognized convertible format for `convertVideo`. -/
def videoConvertible (att : ConvAttachment) : Prop :=
  att.uti = some "com.apple.quicktime-movie" ∨
  ∃ m : String, att.mimeType = some m ∧ m.startsWith "video/quicktime" = true

instance (att : ConvAttachment) : Decidable (audioConvertible att) := by
  unfold audioConvertible; infer_instance

instance (att : ConvAttachment) : Decidable (imageConvertible att) := by
  unfold imageConvertible
  rcases att.mimeType with _ | m
  · exact .isFalse (by simp)
  · exact decidable_of_iff (m.startsWith "image/heic" = true) (by simp)

instance (att : ConvAttachment) : Decidable (videoConvertible att) := by
  unfold videoConvertible
  rcases h : att.mimeType with _ | m
  · exact decidable_of_iff (att.uti = some "com.apple.quicktime-movie") (by simp)
  · exact decidable_of_iff
      (att.uti = some "com.apple.quicktime-movie" ∨
        m.startsWith "video/quicktime" = true) (by simp)

/-- C10.  Each converter returns null and leaves `mimeType`, `filePath` and
`transferName` (and every other field) unchanged when the attachment's type
is not its recognized convertible format, and likewise when the conversion
attempt throws; a new path is returned only for a recognized format with no
conversion failure, and then the three fields are rewritten to the
converted values. -/
theorem c10_conversion_frame :
    (∀ (d : String) (att : ConvAttachment) (pe ct : Bool),
      ¬ audioConvertible att → convertAudio d att pe ct = (none, att)) ∧
    (∀ (d : String) (att : ConvAttachment),
      convertAudio d att false true = (none, att)) ∧
    (∀ (d : String) (att : ConvAttachment) (pe ct : Bool) (p : String),
      (convertAudio d att pe ct).1 = some p →
      audioConvertible att ∧ ¬(pe = false ∧ ct = true) ∧
      p = d ++ "/" ++ att.guid ++ ".mp3" ∧
      (convertAudio d att pe ct).2.mimeType = some "audio/mp3" ∧
      (convertAudio d att pe ct).2.filePath = p ∧
      (convertAudio d att pe ct).2.transferName =
        some (jsReplaceFirst (basename p) ".caf" ".mp3") ∧
      (convertAudio d att pe ct).2.guid = att.guid ∧
      (convertAudio d att pe ct).2.uti = att.uti) ∧
    (∀ (d : String) (att : ConvAttachment) (pe ct : Bool),
      ¬ imageConvertible att → convertImage d att pe ct = (none, att)) ∧
    (∀ (d : String) (att : ConvAttachment),
      convertImage d att false true = (none, att)) ∧
    (∀ (d : String) (att : ConvAttachment) (pe ct : Bool) (p : String),
      (convertImage d att pe ct).1 = some p →
      imageConvertible att ∧ ¬(pe = false ∧ ct = true) ∧
      p = d ++ "/" ++ att.guid ++ ".jpg" ∧
      (convertImage d att pe ct).2.mimeType = some "image/jpg" ∧
      (convertImage d att pe ct).2.filePath = p ∧
      (convertImage d att pe ct).2.transferName =
        some (jsReplaceFirst (basename p) ".heic" ".jpg") ∧
      (convertImage d att pe ct).2.guid = att.guid ∧
      (convertImage d att pe ct).2.uti = att.uti) ∧
    (∀ (d : String) (att : ConvAttachment) (pe ct : Bool),
      ¬ videoConvertible att → convertVideo d att pe ct = (none, att)) ∧
    (∀ (d : String) (att : ConvAttachment),
      convertVideo d att false true = (none, att)) ∧
    (∀ (d : String) (att : ConvAttachment) (pe ct : Bool) (p : String),
      (convertVideo d att pe ct).1 = some p →
      videoConvertible att ∧ ¬(pe = false ∧ ct = true) ∧
      p = d ++ "/" ++ att.guid ++ ".mp4" ∧
      (convertVideo d att pe ct).2.mimeType = some "video/mp4" ∧
      (convertVideo d att pe ct).2.filePath = p ∧
      (convertVideo d att pe ct).2.transferName =
        some (jsReplaceFirst (basename p) ".mov" ".mp4") ∧
      (convertVideo d att pe ct).2.guid = att.guid ∧
      (convertVideo d att pe ct).2.uti = att.uti) := by
  refine ⟨?_, ?_, ?_, ?_, ?_, ?_, ?_, ?_, ?_⟩
  · intro d att pe ct hna
    have hbeq : (att.uti == some "com.apple.coreaudio-format") = false :=
      beq_eq_false_iff_ne.mpr hna
    simp [convertAudio, hbeq]
  · intro d att
    by_cases hbeq : (att.uti == some "com.apple.coreaudio-format") = true <;>
      simp [convertAudio, hbeq]
  · intro d att pe ct p hp
    by_cases hbeq : (att.uti == some "com.apple.coreaudio-format") = true
    · by_cases hf : (!pe && ct) = true
      · exfalso
        simp [convertAudio, hbeq, hf] at hp
      · have hcond : ¬(pe = false ∧ ct = true) := by
          rintro ⟨rfl, rfl⟩
          simp at hf
        have hval : p = d ++ "/" ++ att.guid ++ ".mp3" := by
          simp [convertAudio, hbeq, hf] at hp
          exact hp.symm
        refine ⟨beq_iff_eq.mp hbeq, hcond, hval, ?_, ?_, ?_, ?_, ?_⟩ <;>
          simp [convertAudio, hbeq, hf, hval]
    · exfalso
      rw [Bool.not_eq_true] at hbeq
      simp [convertAudio, hbeq] at hp
  · intro d att pe ct hna
    have hguard : (isNotEmptyOpt att.mimeType &&
        (att.mimeType.getD "").startsWith "image/heic") = false := by
      rcases h : att.mimeType with _ | m
      · rfl
      · have hm : m.startsWith "image/heic" = false := by
          by_contra hc
          rw [Bool.not_eq_false] at hc
          exact hna ⟨m, h, hc⟩
        simp [isNotEmptyOpt, h, hm]
    simp [convertImage, hguard]
  · intro d att
    by_cases hguard : (isNotEmptyOpt att.mimeType &&
        (att.mimeType.getD "").startsWith "image/heic") = true <;>
      simp [convertImage, hguard]
  · intro d att pe ct p hp
    by_cases hguard : (isNotEmptyOpt att.mimeType &&
        (att.mimeType.getD "").startsWith "image/heic") = true
    · by_cases hf : (!pe && ct) = true
      · exfalso
        simp [convertImage, hguard, hf] at hp
      · have hcond : ¬(pe = false ∧ ct = true) := by
          rintro ⟨rfl, rfl⟩
          simp at hf
        have hval : p = d ++ "/" ++ att.guid ++ ".jpg" := by
          simp [convertImage, hguard, hf] at hp
          exact hp.symm
        have hconv : imageConvertible att := by
          rcases h : att.mimeType with _ | m
          · rw [h] at hguard; simp [isNotEmptyOpt] at hguard
          · rw [h] at hguard
            simp [isNotEmptyOpt] at hguard
            exact ⟨m, h, hguard.2⟩
        refine ⟨hconv, hcond, hval, ?_, ?_, ?_, ?_, ?_⟩ <;>
          simp [convertImage, hguard, hf, hval]
    · exfalso
      rw [Bool.not_eq_true] at hguard
      simp [convertImage, hguard] at hp
  · intro d att pe ct hna
    rw [videoConvertible, not_or] at hna
    obtain ⟨huti, hmime⟩ := hna
    have hbuti : (att.uti == some "com.apple.quicktime-movie") = false :=
      beq_eq_false_iff_ne.mpr huti
    have hguard : (isNotEmptyOpt att.mimeType &&
        ((att.uti == some "com.apple.quicktime-movie") ||
         (att.mimeType.getD "").startsWith "video/quicktime")) = false := by
      rcases h : att.mimeType with _ | m
      · rfl
      · have hm : m.startsWith "video/quicktime" = false := by
          by_contra hc
          rw [Bool.not_eq_false] at hc
          exact hmime ⟨m, h, hc⟩
        simp [isNotEmptyOpt, h, hm, hbuti]
    simp [convertVideo, hguard]
  · intro d att
    by_cases hguard : (isNotEmptyOpt att.mimeType &&
        ((att.uti == some "com.apple.quicktime-movie") ||
         (att.mimeType.getD "").startsWith "video/quicktime")) = true <;>
      simp [convertVideo, hguard]
  · intro d att pe ct p hp
    by_cases hguard : (isNotEmptyOpt att.mimeType &&
        ((att.uti == some "com.apple.quicktime-movie") ||
         (att.mimeType.getD "").startsWith "video/quicktime")) = true
    · by_cases hf : (!pe && ct) = true
      · exfalso
        simp [convertVideo, hguard, hf] at hp
      · have hcond : ¬(pe = false ∧ ct = true) := by
          rintro ⟨rfl, rfl⟩
          simp at hf
        have hval : p = d ++ "/" ++ att.guid ++ ".mp4" := by
          simp [convertVideo, hguard, hf] at hp
          exact hp.symm
        have hconv : videoConvertible att := by
          rw [Bool.and_eq_true] at hguard
          rcases Bool.or_eq_true_iff.mp hguard.2 with hu | hm
          · exact Or.inl (beq_iff_eq.mp hu)
          · rcases h : att.mimeType with _ | m
            · rw [h] at hguard; simp [isNotEmptyOpt] at hguard
            · rw [h] at hm
              exact Or.inr ⟨m, h, hm⟩
        refine ⟨hconv, hcond, hval, ?_, ?_, ?_, ?_, ?_⟩ <;>
          simp [convertVideo, hguard, hf, hval]
    · exfalso
      rw [Bool.not_eq_true] at hguard
      simp [convertVideo, hguard] at hp

/-- C10 witness: the theorem applied at a non-convertible attachment (PNG
through `convertAudio`, unchanged) and at a successful CAF-to-MP3
conversion (MIME type rewritten). -/
theorem c10_conversion_witness :
    convertAudio "/conv"
      { guid := "G", uti := some "public.png", mimeType := some "image/png",
        filePath := "/orig/pic.png", transferName := some "pic.png" }
      false false =
      (none,
       { guid := "G", uti := some "public.png", mimeType := some "image/png",
         filePath := "/orig/pic.png", transferName := some "pic.png" }) ∧
    (convertAudio "/conv"
      { guid := "G", uti := some "com.apple.coreaudio-format",
        mimeType := some "audio/x-caf", filePath := "/orig/voice.caf",
        transferName := some "voice.caf" } false false).2.mimeType =
      some "audio/mp3" :=
  ⟨c10_conversion_frame.1 "/conv"
    { guid := "G", uti := some "public.png", mimeType := some "image/png",
      filePath := "/orig/pic.png", transferName := some "pic.png" }
    false false (by decide),
   (c10_conversion_frame.2.2.1 "/conv"
     { guid := "G", uti := some "com.apple.coreaudio-format",
       mimeType := some "audio/x-caf", filePath := "/orig/voice.caf",
       transferName := some "voice.caf" } false false "/conv/G.mp3"
     rfl).2.2.2.1⟩
